import Mathlib

/-!
Shallow embedding of `src/Grbl_Esp32/Motors/TrinamicDriverClass.cpp`
(the Trinamic SPI stepper-driver adapter of this Grbl_Esp32 fork).

Modelling conventions:
* Chip register writes performed through the `TMCStepper` library object are
  recorded as a trace (`List ChipOp`); diagnostic messages sent through
  `grbl_msg_sendf` are recorded as `Msg` values.  Pin-level I/O
  (`digitalWrite`, `pinMode`, step/dir pin setup) is outside the chip-register
  trace and is not modelled, since no claim is about it.
* C `float` arithmetic is embedded as exact rational arithmetic (`ℚ`).  Every
  concrete value appearing in the claims is exactly representable in single
  precision and every operation involved is monotone under correct rounding,
  so the rational model is faithful for the properties proved here.
* The cast `(uint32_t)tstep` of a non-negative in-range float truncates toward
  zero; it is modelled as `Int.toNat ∘ Rat.floor`.  (An out-of-range cast is
  undefined behavior in C and is not given a meaning here.)
* Compile-time configuration macros (`TRINAMIC_FCLK`, `TRINAMIC_RUN_MODE`,
  `TRINAMIC_HOMING_STALLGUARD`, `NORMAL_TCOOLTHRS`, `NORMAL_THIGH`,
  `USE_TRINAMIC_ENABLE`) and the per-axis settings store live in headers that
  are not part of `src/`; they enter the model as fields of `Config`
  (modelled from the spec: the spec calls them the statically configured
  default run mode, the static default threshold constants, the chip clock
  frequency, the electrical-disable feature flag, and the AxisConfigProvider).
-/

namespace Trinamic

/-- The three operating-mode constants `TRINAMIC_RUN_MODE_STEALTHCHOP`,
`TRINAMIC_RUN_MODE_COOLSTEP`, `TRINAMIC_RUN_MODE_STALLGUARD` used for the
`_mode` member. -/
inductive RunMode where
  | stealthchop
  | coolstep
  | stallguard
  deriving DecidableEq, Repr

/-- Per-axis settings read from `axis_settings[axis_index]`, plus the global
`homing_feed_rate` setting.  Modelled from the spec: the settings store
(AxisConfigProvider) is outside `src/`; fields follow the spec, section 3:
microsteps (integer), run current (amps), hold current (percent), stallguard
sensitivity (signed integer), steps-per-unit, homing feed rate. -/
structure AxisSettings where
  microsteps : ℕ
  run_current : ℚ
  hold_current : ℚ
  stallguard : ℤ
  steps_per_mm : ℚ
  deriving DecidableEq, Repr

/-- Compile-time configuration of the module.  Modelled from the spec: these
are macros from headers outside `src/` (chip clock frequency, the statically
configured default run mode, the homing-strategy selector constant compared
against `_homing_mode`, the two static threshold constants, and whether the
`USE_TRINAMIC_ENABLE` electrical-disable feature is compiled in), together
with the per-axis settings for this handle and the global homing feed rate. -/
structure Config where
  fclk : ℚ
  run_mode : RunMode
  homing_stallguard_const : ℕ
  normal_tcoolthrs : ℕ
  normal_thigh : ℕ
  use_trinamic_enable : Bool
  axis : AxisSettings
  homing_feed_rate : ℚ
  deriving DecidableEq, Repr

/-- The mutable members of `TrinamicDriver` that the modelled operations read
or write: `_mode`, `_is_homing`, `_homing_mode` (a numeric member assigned
from a `bool` by `set_homing_mode`), `is_active`. -/
structure DriverState where
  mode : RunMode
  is_homing : Bool
  homing_mode : ℕ
  is_active : Bool
  deriving DecidableEq, Repr

/-- One chip register write (or chip call) through the `TMCStepper` object. -/
inductive ChipOp where
  | begin_chip
  | microsteps (n : ℕ)
  | rms_current (milliamps : ℚ) (hold_fraction : ℚ)
  | sgt (v : ℤ)
  | toff (v : ℕ)
  | en_pwm_mode (v : ℕ)
  | pwm_autoscale (v : ℕ)
  | tbl (v : ℕ)
  | hysteresis_start (v : ℕ)
  | hysteresis_end (v : ℤ)
  | sfilt (v : ℕ)
  | diag1_pushpull (v : ℕ)
  | diag1_stall (v : ℕ)
  | tcoolthrs (v : ℕ)
  | thigh (v : ℕ)
  deriving DecidableEq, Repr

/-- Diagnostic messages sent with `grbl_msg_sendf`. -/
inductive Msg where
  | unsupported_part_number (pn : ℕ)
  | config_message
  | test_failed_check_connection
  | test_failed_check_motor_power
  | test_passed
  deriving DecidableEq, Repr

/-- The step-frequency expression of `calc_tstep` (line 199):
`speed / 60.0 * steps_per_mm * (float)(256 / microsteps)`.
`256 / microsteps` is integer division (the microsteps setting is an
integer), truncating before the cast to float. -/
def tstep_freq (cfg : Config) (speed : ℚ) : ℚ :=
  speed / 60 * cfg.axis.steps_per_mm * ((256 / cfg.axis.microsteps : ℕ) : ℚ)

/-- `TrinamicDriver::calc_tstep` (lines 198-203):
`tstep = TRINAMIC_FCLK / tstep * percent / 100.0; return (uint32_t)tstep;`. -/
def calc_tstep (cfg : Config) (speed : ℚ) (percent : ℚ) : ℕ :=
  (Int.floor (cfg.fclk / tstep_freq cfg speed * percent / 100)).toNat

/-- The real-valued threshold formula as the spec states it (section 4.6):
`step_frequency = speed/60 × steps_per_unit × (256 / microsteps)` with the
microstep quotient taken over the rationals, no truncation.  This definition
follows the SPEC, for comparison with `calc_tstep` above. -/
def calc_tstep_spec (cfg : Config) (speed : ℚ) (percent : ℚ) : ℕ :=
  (Int.floor (cfg.fclk /
      (speed / 60 * cfg.axis.steps_per_mm * (256 / (cfg.axis.microsteps : ℚ)))
      * percent / 100)).toNat

/-- The mode decision at the top of `TrinamicDriver::set_mode` (lines 137-142):
`if (_is_homing && (_homing_mode == TRINAMIC_HOMING_STALLGUARD))
   _mode = TRINAMIC_RUN_MODE_STALLGUARD; else _mode = TRINAMIC_RUN_MODE;`.
Note the condition tests the member `_is_homing`, while `set_homing_mode`
writes the member `_homing_mode`. -/
def mode_decision (cfg : Config) (s : DriverState) : RunMode :=
  if s.is_homing = true ∧ s.homing_mode = cfg.homing_stallguard_const then
    RunMode.stallguard
  else
    cfg.run_mode

/-- `TrinamicDriver::set_mode` (lines 134-169): decide `_mode`, then issue
the register writes of the corresponding branch.  Returns the updated state
and the chip-write trace.  The `else` branch (CoolStep and Stallguard) shares
its first seven writes and then branches on the two threshold registers, as
in the source. -/
def set_mode (cfg : Config) (s : DriverState) : DriverState × List ChipOp :=
  let m := mode_decision cfg s
  let ops :=
    if m = RunMode.stealthchop then
      [ChipOp.toff 5, ChipOp.en_pwm_mode 1, ChipOp.pwm_autoscale 1]
    else
      [ChipOp.tbl 1, ChipOp.toff 3, ChipOp.hysteresis_start 4,
       ChipOp.hysteresis_end (-2), ChipOp.sfilt 1, ChipOp.diag1_pushpull 0,
       ChipOp.diag1_stall 1] ++
      (if m = RunMode.coolstep then
        [ChipOp.tcoolthrs cfg.normal_tcoolthrs, ChipOp.thigh cfg.normal_thigh]
      else
        [ChipOp.tcoolthrs (calc_tstep cfg cfg.homing_feed_rate 150),
         ChipOp.thigh (calc_tstep cfg cfg.homing_feed_rate 60)])
  ({ s with mode := m }, ops)

/-- `TrinamicDriver::set_homing_mode` (lines 124-127):
`_homing_mode = is_homing; set_mode();`.  The C++ assigns the `bool`
argument to the numeric member `_homing_mode` (true becomes 1); the member
`_is_homing` is NOT written here. -/
def set_homing_mode (cfg : Config) (is_homing : Bool) (s : DriverState) :
    DriverState × List ChipOp :=
  set_mode cfg { s with homing_mode := if is_homing then 1 else 0 }

/-- `TrinamicDriver::read_settings` (lines 117-122): pushes microsteps,
`rms_current(run_current * 1000.0, hold_current / 100.0)` and the stallguard
sensitivity to the chip. -/
def read_settings (cfg : Config) : List ChipOp :=
  [ChipOp.microsteps cfg.axis.microsteps,
   ChipOp.rms_current (cfg.axis.run_current * 1000) (cfg.axis.hold_current / 100),
   ChipOp.sgt cfg.axis.stallguard]

/-- `TrinamicDriver::test` (lines 96-111), as a function of the probe code
returned by `tmcstepper->test_connection()`: case 1 fails with the
check-connection message, case 2 fails with the check-motor-power message,
every other code passes. -/
def test (probe : ℕ) : Bool × Msg :=
  if probe = 1 then (false, Msg.test_failed_check_connection)
  else if probe = 2 then (false, Msg.test_failed_check_motor_power)
  else (true, Msg.test_passed)

/-- `TrinamicDriver::set_disable` (lines 208-222).  The `digitalWrite` on the
disable pin is pin I/O, outside the chip-register trace.  Under
`#ifdef USE_TRINAMIC_ENABLE`: disabling writes `toff(0)`, re-enabling calls
`set_mode()`.  Without the feature no chip register is touched. -/
def set_disable (cfg : Config) (disable : Bool) (s : DriverState) :
    DriverState × List ChipOp :=
  if cfg.use_trinamic_enable then
    if disable then (s, [ChipOp.toff 0])
    else set_mode cfg s
  else (s, [])

/-- Status values read back from the chip by `debug_message`: the `TSTEP`
register (a `uint32_t` as returned by the library), the stallguard flag and
the raw stallguard result. -/
structure ChipStatus where
  tstep : ℕ
  stallguard_flag : Bool
  sg_result : ℕ
  deriving DecidableEq, Repr

/-- The suppression test of `debug_message` (line 178):
`if (tstep == 0xFFFFF || tstep == -1) return;`.  `tstep` is `uint32_t`, so
`tstep == -1` compares against `0xFFFFFFFF`.  `0xFFFFF` is the saturated
value of the 20-bit step-time register, the standstill (not moving)
indication; the `-1` arm catches the all-ones `uint32_t`. -/
def tstep_not_moving (tstep : ℕ) : Prop :=
  tstep = 0xFFFFF ∨ tstep = 0xFFFFFFFF

instance (tstep : ℕ) : Decidable (tstep_not_moving tstep) := by
  unfold tstep_not_moving; infer_instance

/-- What one `debug_message` report contains: axis name, stallguard flag,
raw stallguard result, realtime feed rate, configured stallguard setting. -/
structure DebugReport where
  axis_name : String
  stallguard_flag : Bool
  sg_result : ℕ
  feedrate : ℚ
  sg_setting : ℤ
  deriving DecidableEq, Repr

/-- `TrinamicDriver::debug_message` (lines 174-192): reads `TSTEP`; if the
axis is not moving, returns with no output; otherwise reports axis name,
stallguard flag, stallguard result, the realtime rate from
`st_get_realtime_rate()` and the configured stallguard setting. -/
def debug_message (cfg : Config) (axis_name : String) (st : ChipStatus)
    (realtime_rate : ℚ) : Option DebugReport :=
  if tstep_not_moving st.tstep then none
  else
    some { axis_name := axis_name
           stallguard_flag := st.stallguard_flag
           sg_result := st.sg_result
           feedrate := realtime_rate
           sg_setting := cfg.axis.stallguard }

/-- The two concrete `TMCStepper` objects the constructor can create. -/
inductive ChipKind where
  | tmc2130
  | tmc5160
  deriving DecidableEq, Repr

/-- The chip-variant selection of the constructor (lines 42-49):
part number 2130 and 5160 create a driver object, anything else leaves the
`tmcstepper` pointer unset. -/
def select_chip (part_number : ℕ) : Option ChipKind :=
  if part_number = 2130 then some ChipKind.tmc2130
  else if part_number = 5160 then some ChipKind.tmc5160
  else none

/-- The handle fields set by the constructor that later operations consult.
`tmcstepper = none` models the null driver pointer of an unrecognized part
number. -/
structure Handle where
  axis_index : ℕ
  dual_axis_index : ℕ
  driver_part_number : ℕ
  tmcstepper : Option ChipKind
  deriving DecidableEq, Repr

/-- `MAX_AXES` from the missing headers.  Modelled from the spec: the axis
index is wrapped modulo the axis count, and indices below 6 are primary. -/
def MAX_AXES : ℕ := 6

/-- `TrinamicDriver::TrinamicDriver` (lines 23-65): field assignment, chip
selection; on an unrecognized part number it sends the unsupported-p/n
diagnostic and returns early (before pin setup and `config_message`), leaving
no driver object.  Otherwise finishes setup and sends the config message.
No chip register is written in either case. -/
def construct (axis_index : ℕ) (part_number : ℕ) : Handle × List Msg :=
  let h : Handle :=
    { axis_index := axis_index % MAX_AXES
      dual_axis_index := if axis_index < 6 then 0 else 1
      driver_part_number := part_number
      tmcstepper := select_chip part_number }
  match select_chip part_number with
  | none => (h, [Msg.unsupported_part_number part_number])
  | some _ => (h, [Msg.config_message])

/-- The crash mode of calling through a null `tmcstepper` pointer. -/
inductive Crash where
  | null_dereference
  deriving DecidableEq, Repr

/-- `TrinamicDriver::init` (lines 67-78): `tmcstepper->begin()` is called
unconditionally, so with no driver object the very first chip call
dereferences a null pointer (modelled as `Except.error`).  Otherwise it runs
the connectivity test, `read_settings()`, `set_mode()`, then clears
`_is_homing` and marks the handle active. -/
def init (cfg : Config) (h : Handle) (probe : ℕ) (s : DriverState) :
    Except Crash (DriverState × List ChipOp × List Msg) :=
  match h.tmcstepper with
  | none => Except.error Crash.null_dereference
  | some _ =>
    let t := test probe
    let sm := set_mode cfg s
    let s2 := { sm.1 with is_homing := false, is_active := true }
    Except.ok (s2, ChipOp.begin_chip :: (read_settings cfg ++ sm.2), [t.2])

/-- `TrinamicDriver::test` called through the handle: `sprintf` runs first,
then `tmcstepper->test_connection()` dereferences the driver pointer, a null
dereference when no driver object was created. -/
def handle_test (h : Handle) (probe : ℕ) : Except Crash (Bool × Msg) :=
  match h.tmcstepper with
  | none => Except.error Crash.null_dereference
  | some _ => Except.ok (test probe)

/-- `TrinamicDriver::read_settings` called through the handle:
`tmcstepper->microsteps(...)` dereferences the driver pointer. -/
def handle_read_settings (cfg : Config) (h : Handle) :
    Except Crash (List ChipOp) :=
  match h.tmcstepper with
  | none => Except.error Crash.null_dereference
  | some _ => Except.ok (read_settings cfg)

/-! Concrete fixtures used to instantiate the theorems below.  `exAxis` and
`exCfg` carry the values of the worked example in the spec, section 8:
steps-per-unit 80, microsteps 16, chip clock 12 MHz. -/

/-- Example axis settings: microsteps 16, run current 1 A, hold current 50
percent, stallguard sensitivity 3, 80 steps per unit. -/
def exAxis : AxisSettings :=
  { microsteps := 16
    run_current := 1
    hold_current := 50
    stallguard := 3
    steps_per_mm := 80 }

/-- Example configuration: 12 MHz chip clock, CoolStep as the configured
default run mode, homing feed rate 200 units/min. -/
def exCfg : Config :=
  { fclk := 12000000
    run_mode := RunMode.coolstep
    homing_stallguard_const := 1
    normal_tcoolthrs := 1048575
    normal_thigh := 0
    use_trinamic_enable := true
    axis := exAxis
    homing_feed_rate := 200 }

/-- `exCfg` with microsteps 3, a value that does not divide 256. -/
def exCfg3 : Config :=
  { exCfg with axis := { exAxis with microsteps := 3 } }

/-- `exCfg` with microsteps 300, a value above 256. -/
def exCfg300 : Config :=
  { exCfg with axis := { exAxis with microsteps := 300 } }

/-- A driver state as it stands after a completed `init`: default mode
applied, not homing, active. -/
def exState : DriverState :=
  { mode := RunMode.coolstep
    is_homing := false
    homing_mode := 0
    is_active := true }

/-- A driver state in which the stallguard branch of the mode decision is
taken: `_is_homing` set and `_homing_mode` equal to the stallguard
selector constant of `exCfg`. -/
def exStateHoming : DriverState :=
  { mode := RunMode.coolstep
    is_homing := true
    homing_mode := 1
    is_active := true }

/-- An example axis name for the debug query. -/
def exName : String := "X"

/-- Example chip status for the debug query: moving (TSTEP 500),
stallguard flag clear, raw stallguard result 123. -/
def exStatus : ChipStatus :=
  { tstep := 500
    stallguard_flag := false
    sg_result := 123 }

/-- The seven register writes `set_mode` issues before the two threshold
registers in its CoolStep/Stallguard branch (lines 151-157). -/
def coolstep_base : List ChipOp :=
  [ChipOp.tbl 1, ChipOp.toff 3, ChipOp.hysteresis_start 4,
   ChipOp.hysteresis_end (-2), ChipOp.sfilt 1, ChipOp.diag1_pushpull 0,
   ChipOp.diag1_stall 1]

end Trinamic

namespace Trinamic

/-- C3: with speed 600 units/min, percent offset 150, steps-per-unit 80,
microsteps 16 and chip clock 12000000, `calc_tstep` returns exactly 1406
(the step frequency is 600/60 × 80 × (256/16) = 12800, and
12000000/12800 × 1.5 = 1406.25 truncates to 1406). -/
theorem calc_tstep_example_1406 : calc_tstep exCfg 600 150 = 1406 := by
  simp only [calc_tstep, tstep_freq, exCfg, exAxis]
  norm_num
  rfl

/-- C5: the connectivity test fails with the check-connection diagnostic
exactly on probe code 1, fails with the check-motor-power diagnostic exactly
on probe code 2, and passes with the test-passed diagnostic on every other
probe code. -/
theorem test_connection_outcomes (probe : ℕ) :
    (test probe = (false, Msg.test_failed_check_connection) ↔ probe = 1) ∧
    (test probe = (false, Msg.test_failed_check_motor_power) ↔ probe = 2) ∧
    (probe ≠ 1 → probe ≠ 2 → test probe = (true, Msg.test_passed)) := by
  unfold test
  by_cases h1 : probe = 1 <;> by_cases h2 : probe = 2 <;> simp [h1, h2]

/-- Witness for C5: probe code 0 passes. -/
theorem test_connection_outcomes_witness :
    test 0 = (true, Msg.test_passed) :=
  (test_connection_outcomes 0).2.2 (by decide) (by decide)

/-- C9: settings synchronization pushes exactly three values to the chip:
the configured microsteps, the RMS run current as the configured amps times
1000 (milliamps) together with the hold-current percentage divided by 100
(a fraction), and the configured stallguard sensitivity — and nothing else. -/
theorem read_settings_pushes_exactly (cfg : Config) :
    read_settings cfg =
      [ChipOp.microsteps cfg.axis.microsteps,
       ChipOp.rms_current (cfg.axis.run_current * 1000)
         (cfg.axis.hold_current / 100),
       ChipOp.sgt cfg.axis.stallguard] :=
  rfl

/-- C4: for positive chip clock and steps-per-unit, and microsteps drawn
from the power-of-two set 1..256, `calc_tstep` is non-increasing in the
speed (over positive speeds) and non-decreasing in the percent offset
(over positive offsets). -/
theorem calc_tstep_monotone (cfg : Config)
    (hfclk : 0 < cfg.fclk) (hspm : 0 < cfg.axis.steps_per_mm)
    (hms : cfg.axis.microsteps ∈ ({1, 2, 4, 8, 16, 32, 64, 128, 256} : Finset ℕ)) :
    (∀ s1 s2 p : ℚ, 0 < s1 → s1 ≤ s2 → 0 < p →
      calc_tstep cfg s2 p ≤ calc_tstep cfg s1 p) ∧
    (∀ s p1 p2 : ℚ, 0 < s → 0 < p1 → p1 ≤ p2 →
      calc_tstep cfg s p1 ≤ calc_tstep cfg s p2) := by
  have hF : (0 : ℚ) < ((256 / cfg.axis.microsteps : ℕ) : ℚ) := by
    simp only [Finset.mem_insert, Finset.mem_singleton] at hms
    rcases hms with h | h | h | h | h | h | h | h | h <;> rw [h] <;> norm_num
  have hfreq : ∀ s : ℚ, 0 < s → 0 < tstep_freq cfg s := by
    intro s hs
    unfold tstep_freq
    positivity
  have hfreq_mono : ∀ s1 s2 : ℚ, s1 ≤ s2 →
      tstep_freq cfg s1 ≤ tstep_freq cfg s2 := by
    intro s1 s2 h12
    unfold tstep_freq
    gcongr
  refine ⟨?_, ?_⟩
  · intro s1 s2 p h1 h12 hp
    apply Int.toNat_le_toNat
    apply Int.floor_mono
    have h0 := hfreq s1 h1
    have hle := hfreq_mono s1 s2 h12
    gcongr
  · intro s p1 p2 hs hp1 hp12
    apply Int.toNat_le_toNat
    apply Int.floor_mono
    have h0 := hfreq s hs
    gcongr

/-- Witness for C4 at microsteps 16, steps-per-unit 80, clock 12 MHz:
doubling the speed does not raise the threshold, and lowering the percent
offset does not raise it. -/
theorem calc_tstep_monotone_witness :
    calc_tstep exCfg 1200 150 ≤ calc_tstep exCfg 600 150 ∧
    calc_tstep exCfg 600 100 ≤ calc_tstep exCfg 600 150 := by
  have h := calc_tstep_monotone exCfg (by norm_num [exCfg])
    (by norm_num [exCfg, exAxis]) (by decide)
  exact ⟨h.1 600 1200 150 (by norm_num) (by norm_num) (by norm_num),
         h.2 600 100 150 (by norm_num) (by norm_num) (by norm_num)⟩

/-- C10: the microstep factor is the truncating integer division
`256 / microsteps`: for every positive microsteps value that does not divide
256 the factor differs from the real-valued quotient; for microsteps above
256 the factor is 0, so the step frequency is 0 and the following clock
division `TRINAMIC_FCLK / tstep` divides by zero, unguarded.  Concretely,
at microsteps 3 (speed 600, percent 150) the code returns 264 while the
real-valued formula of the spec yields 263. -/
theorem calc_tstep_truncated_division :
    (∀ ms : ℕ, 0 < ms → ¬ ms ∣ 256 → ((256 / ms : ℕ) : ℚ) ≠ 256 / (ms : ℚ)) ∧
    (∀ cfg : Config, ∀ s : ℚ, 256 < cfg.axis.microsteps →
      (256 / cfg.axis.microsteps : ℕ) = 0 ∧ tstep_freq cfg s = 0) ∧
    (calc_tstep exCfg3 600 150 = 264 ∧ calc_tstep_spec exCfg3 600 150 = 263) := by
  refine ⟨?_, ?_, ?_, ?_⟩
  · intro ms hms hdvd h
    have hms0 : (ms : ℚ) ≠ 0 := Nat.cast_ne_zero.mpr hms.ne'
    rw [eq_div_iff hms0] at h
    have hnat : 256 / ms * ms = 256 := by exact_mod_cast h
    exact hdvd ⟨256 / ms, by rw [Nat.mul_comm]; exact hnat.symm⟩
  · intro cfg s h
    have hz : 256 / cfg.axis.microsteps = 0 := Nat.div_eq_of_lt h
    refine ⟨hz, ?_⟩
    unfold tstep_freq
    rw [hz]
    simp
  · simp only [calc_tstep, tstep_freq, exCfg3, exCfg, exAxis]
    norm_num
    rfl
  · simp only [calc_tstep_spec, exCfg3, exCfg, exAxis]
    norm_num
    rfl

/-- Witness for C10: microsteps 3 does not divide 256 and its truncated
factor 85 differs from 256/3; microsteps 300 zeroes the step frequency. -/
theorem calc_tstep_truncated_division_witness :
    ((256 / 3 : ℕ) : ℚ) ≠ 256 / (3 : ℚ) ∧ tstep_freq exCfg300 600 = 0 :=
  ⟨calc_tstep_truncated_division.1 3 (by norm_num) (by decide),
   (calc_tstep_truncated_division.2.1 exCfg300 600 (by decide)).2⟩

/-- C6: when the mode decision selects stallguard homing, `set_mode` issues
the same seven-write baseline as the CoolStep branch and then writes
TCOOLTHRS with `calc_tstep(homing_feed_rate, 150)` and THIGH with
`calc_tstep(homing_feed_rate, 60)`; when it selects CoolStep, the same
baseline is followed by the static constants `NORMAL_TCOOLTHRS` and
`NORMAL_THIGH`. -/
theorem set_mode_stallguard_thresholds (cfg : Config) (s t : DriverState)
    (hs : mode_decision cfg s = RunMode.stallguard)
    (ht : mode_decision cfg t = RunMode.coolstep) :
    (set_mode cfg s).2 = coolstep_base ++
      [ChipOp.tcoolthrs (calc_tstep cfg cfg.homing_feed_rate 150),
       ChipOp.thigh (calc_tstep cfg cfg.homing_feed_rate 60)] ∧
    (set_mode cfg t).2 = coolstep_base ++
      [ChipOp.tcoolthrs cfg.normal_tcoolthrs,
       ChipOp.thigh cfg.normal_thigh] := by
  unfold set_mode coolstep_base
  rw [hs, ht]
  simp

/-- Witness for C6 at the concrete configuration `exCfg` with states taking
the stallguard and the CoolStep branches. -/
theorem set_mode_stallguard_thresholds_witness :
    (set_mode exCfg exStateHoming).2 = coolstep_base ++
      [ChipOp.tcoolthrs (calc_tstep exCfg exCfg.homing_feed_rate 150),
       ChipOp.thigh (calc_tstep exCfg exCfg.homing_feed_rate 60)] ∧
    (set_mode exCfg exState).2 = coolstep_base ++
      [ChipOp.tcoolthrs exCfg.normal_tcoolthrs,
       ChipOp.thigh exCfg.normal_thigh] :=
  set_mode_stallguard_thresholds exCfg exStateHoming exState (by decide) (by decide)

/-- C7: with the `USE_TRINAMIC_ENABLE` feature compiled in and the stored
mode consistent with the mode decision, `set_disable true` writes exactly
`toff(0)` and changes no state, and the following `set_disable false` runs
`set_mode` verbatim — identical write trace and resulting state — leaving
the mode that was active immediately before disabling. -/
theorem set_disable_roundtrip (cfg : Config) (s : DriverState)
    (hen : cfg.use_trinamic_enable = true)
    (hmode : s.mode = mode_decision cfg s) :
    (set_disable cfg true s).2 = [ChipOp.toff 0] ∧
    (set_disable cfg true s).1 = s ∧
    set_disable cfg false (set_disable cfg true s).1 = set_mode cfg s ∧
    (set_disable cfg false (set_disable cfg true s).1).1.mode = s.mode := by
  have hsm : (set_mode cfg s).1.mode = mode_decision cfg s := rfl
  refine ⟨by simp [set_disable, hen], by simp [set_disable, hen],
          by simp [set_disable, hen], ?_⟩
  simp [set_disable, hen, hsm]
  exact hmode.symm

/-- Witness for C7 at `exCfg` (feature enabled) and the post-`init` state. -/
theorem set_disable_roundtrip_witness :
    (set_disable exCfg true exState).2 = [ChipOp.toff 0] ∧
    (set_disable exCfg true exState).1 = exState ∧
    set_disable exCfg false (set_disable exCfg true exState).1 =
      set_mode exCfg exState ∧
    (set_disable exCfg false (set_disable exCfg true exState).1).1.mode =
      exState.mode :=
  set_disable_roundtrip exCfg exState (by decide) (by decide)

/-- C8: the debug query yields no output exactly when the step-timing
register reads the not-moving indication (the saturated 20-bit value 0xFFFFF
or the all-ones uint32 compared by the `tstep == -1` arm); otherwise it
reports exactly the axis name, the stallguard flag, the raw stallguard
result, the realtime feed rate and the configured stallguard setting. -/
theorem debug_message_exact (cfg : Config) (name : String) (st : ChipStatus)
    (rate : ℚ) :
    (debug_message cfg name st rate = none ↔ tstep_not_moving st.tstep) ∧
    (¬ tstep_not_moving st.tstep →
      debug_message cfg name st rate = some
        { axis_name := name
          stallguard_flag := st.stallguard_flag
          sg_result := st.sg_result
          feedrate := rate
          sg_setting := cfg.axis.stallguard }) := by
  unfold debug_message
  by_cases h : tstep_not_moving st.tstep <;> simp [h]

/-- Witness for C8: with TSTEP 500 (moving) the report carries the five
fields. -/
theorem debug_message_exact_witness :
    debug_message exCfg exName exStatus 100 = some
      { axis_name := exName
        stallguard_flag := exStatus.stallguard_flag
        sg_result := exStatus.sg_result
        feedrate := 100
        sg_setting := exCfg.axis.stallguard } :=
  (debug_message_exact exCfg exName exStatus 100).2 (by decide)

/-- C1 (code bug): `set_homing_mode` stores its boolean argument in the
member `_homing_mode` (line 125), while the stallguard branch of the mode
decision additionally requires `_is_homing` (line 137) — a member that
`init` clears and that nothing in the source ever sets.  Hence after `init`
(or from any state with `_is_homing` clear), `set_homing_mode true` leaves
the driver in the configured default run mode; stallguard homing mode is
unreachable through `set_homing_mode`. -/
theorem set_homing_mode_cannot_reach_stallguard (cfg : Config) (h : Handle)
    (probe : ℕ) (s t : DriverState)
    (hrm : cfg.run_mode ≠ RunMode.stallguard) (ht : t.is_homing = false) :
    (∀ r, init cfg h probe s = Except.ok r → r.1.is_homing = false) ∧
    (set_homing_mode cfg true t).1.mode = cfg.run_mode ∧
    (set_homing_mode cfg true t).1.mode ≠ RunMode.stallguard ∧
    (set_homing_mode cfg true t).1.is_homing = false := by
  have hmode : (set_homing_mode cfg true t).1.mode = cfg.run_mode := by
    unfold set_homing_mode set_mode mode_decision
    simp [ht]
  refine ⟨?_, hmode, ?_, ?_⟩
  · intro r hr
    cases hch : h.tmcstepper with
    | none => simp [init, hch] at hr
    | some c =>
      simp [init, hch] at hr
      rw [← hr]
  · rw [hmode]; exact hrm
  · unfold set_homing_mode set_mode
    simpa using ht

/-- Witness for C1: with CoolStep as the configured default and the
post-`init` state, `set_homing_mode true` yields CoolStep, not stallguard. -/
theorem set_homing_mode_cannot_reach_stallguard_witness :
    (∀ r, init exCfg (construct 0 2130).1 0 exState = Except.ok r →
      r.1.is_homing = false) ∧
    (set_homing_mode exCfg true exState).1.mode = exCfg.run_mode ∧
    (set_homing_mode exCfg true exState).1.mode ≠ RunMode.stallguard ∧
    (set_homing_mode exCfg true exState).1.is_homing = false :=
  set_homing_mode_cannot_reach_stallguard exCfg (construct 0 2130).1 0
    exState exState (by decide) (by decide)

/-- Counterexample for C2: constructing with the unrecognized part number
9999 does emit the configuration-error diagnostic and creates no driver
object, but the handle is not inert: the next `init` call dereferences the
null driver pointer (`tmcstepper->begin()`, line 71) instead of failing
gracefully. -/
theorem inert_handle_init_crashes :
    (construct 0 9999).2 = [Msg.unsupported_part_number 9999] ∧
    (construct 0 9999).1.tmcstepper = none ∧
    init exCfg (construct 0 9999).1 0 exState =
      Except.error Crash.null_dereference ∧
    handle_test (construct 0 9999).1 0 = Except.error Crash.null_dereference := by
  refine ⟨rfl, rfl, rfl, rfl⟩

/-- C2 as amended: an unrecognized part number produces the
configuration-error diagnostic, the constructor returns early with no driver
object and no chip register write; subsequent operations are not guarded and
dereference the missing driver (`init`, the connectivity test and settings
synchronization all crash on the null pointer rather than failing
gracefully). -/
theorem unsupported_part_number_not_inert (ax pn : ℕ)
    (hpn : select_chip pn = none) (cfg : Config) (probe : ℕ)
    (s : DriverState) :
    (construct ax pn).2 = [Msg.unsupported_part_number pn] ∧
    (construct ax pn).1.tmcstepper = none ∧
    init cfg (construct ax pn).1 probe s =
      Except.error Crash.null_dereference ∧
    handle_test (construct ax pn).1 probe =
      Except.error Crash.null_dereference ∧
    handle_read_settings cfg (construct ax pn).1 =
      Except.error Crash.null_dereference := by
  unfold construct init handle_test handle_read_settings
  rw [hpn]
  simp

/-- Witness for C2 (amended) at part number 9999, which selects no chip. -/
theorem unsupported_part_number_not_inert_witness :
    (construct 1 9999).2 = [Msg.unsupported_part_number 9999] ∧
    (construct 1 9999).1.tmcstepper = none ∧
    init exCfg (construct 1 9999).1 1 exState =
      Except.error Crash.null_dereference ∧
    handle_test (construct 1 9999).1 1 =
      Except.error Crash.null_dereference ∧
    handle_read_settings exCfg (construct 1 9999).1 =
      Except.error Crash.null_dereference :=
  unsupported_part_number_not_inert 1 9999 (by decide) exCfg 1 exState

end Trinamic
